import Mathlib

/-!
Shallow embedding of the request-governor subsystem of the repository:
the bounded TTL `Cache` with pluggable eviction (src/unnamed/part_010) and
the hybrid token-bucket / sliding-window `RateLimiter`, its API-feedback
variant `APIRateLimiter`, and the per-key registry `GlobalRateLimiter`
(src/src/utils/RateLimiter.js).

Conventions of the embedding:
* `Date.now()` is made explicit: every operation that reads the clock takes
  a `now : Int` parameter (milliseconds).
* A JavaScript `Map` is modelled as an association list (`List (String × β)`)
  with JS `Map` semantics: `set` overwrites in place preserving insertion
  order, otherwise appends; iteration order is list order.
* JS `x || d` on numbers is falsy exactly at `0` (and `undefined`, modelled
  by `none`); on strings it is falsy exactly at `""`.
* JS float arithmetic on the quantities involved (millisecond timestamps,
  small counts) is modelled exactly with `Int` and `ℚ`.
* Object identity (needed for the registry claims) is modelled by tagging
  each created `RateLimiter` with a fresh numeric id.
-/

namespace Spec2Proof

/-- JS `Map.prototype.get`: first (and, under the `Map` key-uniqueness
invariant, only) binding of the key. -/
def jsGet {β : Type} (m : List (String × β)) (k : String) : Option β :=
  match m with
  | [] => none
  | (k', v) :: rest => if k' = k then some v else jsGet rest k

/-- JS `Map.prototype.set`: overwrite in place if the key is bound
(keeping its position in iteration order), else append. -/
def jsSet {β : Type} (m : List (String × β)) (k : String) (v : β) :
    List (String × β) :=
  match m with
  | [] => [(k, v)]
  | (k', v') :: rest =>
      if k' = k then (k', v) :: rest else (k', v') :: jsSet rest k v

/-- JS `Map.prototype.delete` (the removal part): drop the binding of the
key. Under the `Map` key-uniqueness invariant there is at most one. -/
def jsDelete {β : Type} (m : List (String × β)) (k : String) :
    List (String × β) :=
  match m with
  | [] => []
  | (k', v') :: rest => if k' = k then rest else (k', v') :: jsDelete rest k

/-- JS `Map.prototype.has`. -/
def jsHas {β : Type} (m : List (String × β)) (k : String) : Bool :=
  (jsGet m k).isSome

/-- The key-uniqueness invariant every JS `Map` maintains. -/
def jsNodup {β : Type} (m : List (String × β)) : Prop :=
  (m.map Prod.fst).Nodup

/-- JS `options.x || d` for a numeric option: `undefined` and `0` are
falsy, every other number is kept. -/
def jsOrInt (o : Option Int) (d : Int) : Int :=
  match o with
  | none => d
  | some v => if v = 0 then d else v

/-- JS `options.x || d` for a string option: `undefined` and `""` are
falsy. -/
def jsOrStr (o : Option String) (d : String) : String :=
  match o with
  | none => d
  | some v => if v = "" then d else v

/-! ## Cache (src/unnamed/part_010, `export class Cache`) -/

/-- The per-entry record stored in `this.data`. -/
structure CacheItem (α : Type) where
  value : α
  expiresAt : Int
  createdAt : Int
deriving Repr, DecidableEq

/-- `this.stats` of the cache. -/
structure CacheStats where
  hits : Int
  misses : Int
  sets : Int
  deletes : Int
  evictions : Int
deriving Repr, DecidableEq

/-- The mutable state of a `Cache` instance.  The periodic
`cleanupInterval` timer is not part of the state; its tick body is the
`cleanup` operation below. -/
structure CacheState (α : Type) where
  maxSize : Int
  ttl : Int
  strategy : String
  data : List (String × CacheItem α)
  accessTimes : List (String × Int)
  accessCounts : List (String × Int)
  insertionOrder : List String
  stats : CacheStats
deriving Repr, DecidableEq

/-- Constructor options of `Cache`. -/
structure CacheOptions where
  maxSize : Option Int := none
  ttl : Option Int := none
  strategy : Option String := none
deriving Repr, DecidableEq

/-- `new Cache(options)`: `maxSize = options.maxSize || 1000`,
`ttl = options.ttl || 300`, `strategy = options.strategy || 'lru'`;
empty maps, zeroed stats.  No validation is performed anywhere in the
constructor. -/
def cacheNew (α : Type) (options : CacheOptions) : CacheState α :=
  { maxSize := jsOrInt options.maxSize 1000
    ttl := jsOrInt options.ttl 300
    strategy := jsOrStr options.strategy "lru"
    data := []
    accessTimes := []
    accessCounts := []
    insertionOrder := []
    stats := ⟨0, 0, 0, 0, 0⟩ }

/-- `findLRUKey()`: scan `accessTimes` starting from
`oldestTime = Date.now()`, `oldestKey = null`, updating on strict `<`. -/
def findLRUKey {α : Type} (c : CacheState α) (now : Int) : Option String :=
  (c.accessTimes.foldl
    (fun acc kv => if kv.2 < acc.1 then (kv.2, some kv.1) else acc)
    (now, (none : Option String))).2

/-- `findFIFOKey()`: `this.insertionOrder[0] || null` — note a leading
empty-string key is falsy in JS and collapses to `null`. -/
def findFIFOKey {α : Type} (c : CacheState α) : Option String :=
  match c.insertionOrder.head? with
  | none => none
  | some k => if k = "" then none else some k

/-- `findLFUKey()`: scan `accessCounts` starting from
`lowestCount = Infinity`, `leastUsedKey = null`; the accumulator `none`
models `Infinity` (every count is below it). -/
def findLFUKey {α : Type} (c : CacheState α) : Option String :=
  (c.accessCounts.foldl
    (fun acc kv =>
      match acc.1 with
      | none => (some kv.2, some kv.1)
      | some lc => if kv.2 < lc then (some kv.2, some kv.1) else acc)
    ((none : Option Int), (none : Option String))).2

/-- `delete(key)`: remove the key from all three maps and from
`insertionOrder` (`indexOf`/`splice` removes the first occurrence) and
bump `stats.deletes`, iff the key was present in `data`. -/
def cacheDelete {α : Type} (c : CacheState α) (key : String) :
    Bool × CacheState α :=
  if jsHas c.data key then
    (true,
      { c with
        data := jsDelete c.data key
        accessTimes := jsDelete c.accessTimes key
        accessCounts := jsDelete c.accessCounts key
        insertionOrder := c.insertionOrder.erase key
        stats := { c.stats with deletes := c.stats.deletes + 1 } })
  else
    (false, c)

/-- `evict()`: pick a victim per `this.strategy` (unknown strategies fall
through to LRU); `if (keyToEvict)` — JS truthiness, so `null` and the
empty-string key both skip the deletion. -/
def cacheEvict {α : Type} (c : CacheState α) (now : Int) : CacheState α :=
  let keyToEvict :=
    match c.strategy with
    | "lru" => findLRUKey c now
    | "fifo" => findFIFOKey c
    | "lfu" => findLFUKey c
    | _ => findLRUKey c now
  match keyToEvict with
  | none => c
  | some k =>
      if k = "" then c
      else
        let c' := (cacheDelete c k).2
        { c' with stats := { c'.stats with evictions := c'.stats.evictions + 1 } }

/-- `set(key, value, customTtl)`: `expiresAt = now + (customTtl || ttl) * 1000`;
evict first iff `data.size >= maxSize && !data.has(key)`; then store the
entry, reset `accessTimes[key] = now` and `accessCounts[key] = 0`, append
to `insertionOrder` if absent, and bump `stats.sets`. -/
def cacheSet {α : Type} (c : CacheState α) (key : String) (value : α)
    (customTtl : Option Int) (now : Int) : CacheState α :=
  let expiresAt := now + (jsOrInt customTtl c.ttl) * 1000
  let c₁ :=
    if (c.data.length : Int) ≥ c.maxSize ∧ ¬ jsHas c.data key then
      cacheEvict c now
    else c
  { c₁ with
    data := jsSet c₁.data key ⟨value, expiresAt, now⟩
    accessTimes := jsSet c₁.accessTimes key now
    accessCounts := jsSet c₁.accessCounts key 0
    insertionOrder :=
      if key ∈ c₁.insertionOrder then c₁.insertionOrder
      else c₁.insertionOrder ++ [key]
    stats := { c₁.stats with sets := c₁.stats.sets + 1 } }

/-- `get(key)`: `null` miss if absent; if `Date.now() > expiresAt`,
delete and miss; otherwise refresh `accessTimes[key]`, increment
`accessCounts[key]` (`(get(key) || 0) + 1`), bump hits, return the value. -/
def cacheGet {α : Type} (c : CacheState α) (key : String) (now : Int) :
    Option α × CacheState α :=
  match jsGet c.data key with
  | none =>
      (none, { c with stats := { c.stats with misses := c.stats.misses + 1 } })
  | some item =>
      if now > item.expiresAt then
        let c' := (cacheDelete c key).2
        (none, { c' with stats := { c'.stats with misses := c'.stats.misses + 1 } })
      else
        (some item.value,
          { c with
            accessTimes := jsSet c.accessTimes key now
            accessCounts :=
              jsSet c.accessCounts key ((jsGet c.accessCounts key).getD 0 + 1)
            stats := { c.stats with hits := c.stats.hits + 1 } })

/-- `has(key)`: `false` if absent; if `Date.now() > expiresAt`, delete and
`false`; otherwise `true` with no other state change. -/
def cacheHas {α : Type} (c : CacheState α) (key : String) (now : Int) :
    Bool × CacheState α :=
  match jsGet c.data key with
  | none => (false, c)
  | some item =>
      if now > item.expiresAt then (false, (cacheDelete c key).2)
      else (true, c)

/-- `cleanup()` (the periodic sweep body): delete every entry with
`now > expiresAt`, via the same `delete` path. -/
def cacheCleanup {α : Type} (c : CacheState α) (now : Int) : CacheState α :=
  let expiredKeys := (c.data.filter (fun kv => now > kv.2.expiresAt)).map Prod.fst
  expiredKeys.foldl (fun acc k => (cacheDelete acc k).2) c

/-! ## RateLimiter (src/src/utils/RateLimiter.js) -/

/-- `this.stats` of a rate limiter.  `averageWaitTime` is a JS float
computed by exact divisions of the quantities below; it is modelled in ℚ. -/
structure RLStats where
  totalRequests : Int
  rejectedRequests : Int
  averageWaitTime : ℚ
deriving Repr, DecidableEq

/-- The mutable state of a `RateLimiter` instance.  `id` models JS object
identity (each `new RateLimiter(...)` yields a fresh one); it has no
counterpart field in the source. -/
structure RateLimiter where
  id : Nat
  requestsPerMinute : Int
  burstLimit : Int
  windowSizeMs : Int
  tokens : Int
  lastRefill : Int
  requests : List Int
  stats : RLStats
deriving Repr, DecidableEq

/-- Constructor options of `RateLimiter`. -/
structure RLOptions where
  requestsPerMinute : Option Int := none
  burstLimit : Option Int := none
deriving Repr, DecidableEq

/-- `new RateLimiter(options)` at time `now` (`this.lastRefill = Date.now()`):
`requestsPerMinute = options.requestsPerMinute || 60`,
`burstLimit = options.burstLimit || 10`, `windowSizeMs = 60000` (hard-coded),
full tokens, empty window, zeroed stats.  No validation is performed. -/
def rlNew (i : Nat) (options : RLOptions) (now : Int) : RateLimiter :=
  let burst := jsOrInt options.burstLimit 10
  { id := i
    requestsPerMinute := jsOrInt options.requestsPerMinute 60
    burstLimit := burst
    windowSizeMs := 60000
    tokens := burst
    lastRefill := now
    requests := []
    stats := ⟨0, 0, 0⟩ }

/-- `refillTokens(now)`:
`tokensToAdd = Math.floor((timePassed / windowSizeMs) * burstLimit)`;
if positive, `tokens = Math.min(burstLimit, tokens + tokensToAdd)` and
`lastRefill = now`. -/
def refillTokens (rl : RateLimiter) (now : Int) : RateLimiter :=
  let timePassed := now - rl.lastRefill
  let tokensToAdd : Int :=
    ⌊((timePassed : ℚ) / (rl.windowSizeMs : ℚ)) * (rl.burstLimit : ℚ)⌋
  if tokensToAdd > 0 then
    { rl with
      tokens := min rl.burstLimit (rl.tokens + tokensToAdd)
      lastRefill := now }
  else rl

/-- `cleanOldRequests(now)`: keep timestamps with
`timestamp > now - windowSizeMs`. -/
def cleanOldRequests (rl : RateLimiter) (now : Int) : RateLimiter :=
  let cutoff := now - rl.windowSizeMs
  { rl with requests := rl.requests.filter (fun timestamp => timestamp > cutoff) }

/-- `canMakeRequest(now)`: `false` if `tokens <= 0`, `false` if
`requests.length >= requestsPerMinute`, else `true`. -/
def canMakeRequest (rl : RateLimiter) : Bool :=
  if rl.tokens ≤ 0 then false
  else if (rl.requests.length : Int) ≥ rl.requestsPerMinute then false
  else true

/-- `consumeToken()`: `tokens = Math.max(0, tokens - 1)`. -/
def consumeToken (rl : RateLimiter) : RateLimiter :=
  { rl with tokens := max 0 (rl.tokens - 1) }

/-- `calculateWaitTime(now)`:
`Math.max(timeUntilNextToken, timeUntilWindowSlot, 100)` where
`timeUntilNextToken = tokens <= 0 ? windowSizeMs / burstLimit : 0` and
`timeUntilWindowSlot = requests.length >= requestsPerMinute ?
requests[0] + windowSizeMs - now : 0`.  (`requests.headD 0` stands for
`requests[0]`; when the full-window branch is taken with a nonempty window
— the only case arising with a positive `requestsPerMinute` — it is exactly
`requests[0]`.) -/
def calculateWaitTime (rl : RateLimiter) (now : Int) : ℚ :=
  let timeUntilNextToken : ℚ :=
    if rl.tokens ≤ 0 then (rl.windowSizeMs : ℚ) / (rl.burstLimit : ℚ) else 0
  let timeUntilWindowSlot : ℚ :=
    if (rl.requests.length : Int) ≥ rl.requestsPerMinute then
      ((rl.requests.headD 0 + rl.windowSizeMs - now : Int) : ℚ)
    else 0
  max (max timeUntilNextToken timeUntilWindowSlot) 100

/-- `updateAverageWaitTime(waitTime)`:
`averageWaitTime = ((averageWaitTime * (totalWaits - 1)) + waitTime) / totalWaits`
with `totalWaits = stats.rejectedRequests`. -/
def updateAverageWaitTime (rl : RateLimiter) (waitTime : ℚ) : RateLimiter :=
  let totalWaits := rl.stats.rejectedRequests
  { rl with
    stats := { rl.stats with
      averageWaitTime :=
        (rl.stats.averageWaitTime * ((totalWaits : ℚ) - 1) + waitTime)
          / (totalWaits : ℚ) } }

/-- Outcome of one pass of `waitForToken()`: resolve immediately, or
schedule a retry after `wait` milliseconds. -/
inductive AdmissionResult where
  | admitted : AdmissionResult
  | rejected : ℚ → AdmissionResult
deriving Repr, DecidableEq

/-- One admission attempt of `waitForToken()` at time `now` (the body up
to the recursive `setTimeout` retry): refill, prune, then either admit
(consume a token, push `now`, bump `totalRequests`) or compute the wait
and record the rejection. -/
def waitForTokenStep (rl : RateLimiter) (now : Int) :
    AdmissionResult × RateLimiter :=
  let rl₁ := cleanOldRequests (refillTokens rl now) now
  if canMakeRequest rl₁ then
    let rl₂ := consumeToken rl₁
    (AdmissionResult.admitted,
      { rl₂ with
        requests := rl₂.requests ++ [now]
        stats := { rl₂.stats with totalRequests := rl₂.stats.totalRequests + 1 } })
  else
    let waitTime := calculateWaitTime rl₁ now
    let rl₂ :=
      { rl₁ with
        stats := { rl₁.stats with
          rejectedRequests := rl₁.stats.rejectedRequests + 1 } }
    (AdmissionResult.rejected waitTime, updateAverageWaitTime rl₂ waitTime)

/-- `canMakeRequestNow()`: refill/prune bookkeeping, then the boolean. -/
def canMakeRequestNow (rl : RateLimiter) (now : Int) : Bool × RateLimiter :=
  let rl₁ := cleanOldRequests (refillTokens rl now) now
  (canMakeRequest rl₁, rl₁)

/-! ## APIRateLimiter (`handleRateLimitResponse`) -/

/-- The part of an HTTP response `handleRateLimitResponse` inspects:
`response.status` and `response.headers[this.retryAfterHeader]`.  The
header, when present, is a (non-empty, hence JS-truthy) decimal string;
`retryAfter` holds its `parseInt` value in seconds. -/
structure RLResponse where
  status : Int
  retryAfter : Option Int
deriving Repr, DecidableEq

/-- `APIRateLimiter.handleRateLimitResponse(response)`: on a 429 with a
retry hint, `waitTime = parseInt(retryAfter) * 1000`, bump
`rejectedRequests`, update the running average, and delay resolution by
`waitTime`; otherwise resolve immediately (wait 0) with no state change.
Returns (imposed wait in ms, updated limiter). -/
def handleRateLimitResponse (rl : RateLimiter) (response : RLResponse) :
    ℚ × RateLimiter :=
  if response.status = 429 then
    match response.retryAfter with
    | some n =>
        let waitTime : ℚ := (n : ℚ) * 1000
        let rl₁ :=
          { rl with
            stats := { rl.stats with
              rejectedRequests := rl.stats.rejectedRequests + 1 } }
        (waitTime, updateAverageWaitTime rl₁ waitTime)
    | none => (0, rl)
  else (0, rl)

/-! ## GlobalRateLimiter -/

/-- The state of a `GlobalRateLimiter`: `this.limiters` (a `Map` from key
to limiter) plus `nextId`, the fresh-identity counter of the embedding. -/
structure GlobalRL where
  limiters : List (String × RateLimiter)
  nextId : Nat
deriving Repr, DecidableEq

/-- `new GlobalRateLimiter()`. -/
def globalNew : GlobalRL := { limiters := [], nextId := 0 }

/-- `getLimiter(key, options)`: if the key is unbound, bind it to
`new RateLimiter(options)`; return the binding.  Returns
(the limiter, updated registry). -/
def getLimiter (g : GlobalRL) (key : String) (options : RLOptions)
    (now : Int) : RateLimiter × GlobalRL :=
  match jsGet g.limiters key with
  | some l => (l, g)
  | none =>
      let l := rlNew g.nextId options now
      (l, { limiters := jsSet g.limiters key l, nextId := g.nextId + 1 })

/-! ## Association-list lemmas (JS `Map` semantics) -/

theorem jsGet_jsSet_self {β : Type} (m : List (String × β)) (k : String) (v : β) :
    jsGet (jsSet m k v) k = some v := by
  induction m with
  | nil => simp [jsSet, jsGet]
  | cons hd tl ih =>
      obtain ⟨a, b⟩ := hd
      by_cases h : a = k
      · subst h; simp [jsSet, jsGet]
      · simp [jsSet, jsGet, h, ih]

theorem jsGet_jsSet_ne {β : Type} (m : List (String × β)) (k k' : String)
    (v : β) (h : k' ≠ k) : jsGet (jsSet m k v) k' = jsGet m k' := by
  induction m with
  | nil => simp [jsSet, jsGet, Ne.symm h]
  | cons hd tl ih =>
      obtain ⟨a, b⟩ := hd
      by_cases hak : a = k
      · subst hak; simp [jsSet, jsGet, Ne.symm h]
      · simp [jsSet, jsGet, hak, ih]

theorem jsGet_eq_none_of_not_mem {β : Type} (m : List (String × β)) (k : String)
    (h : k ∉ m.map Prod.fst) : jsGet m k = none := by
  induction m with
  | nil => rfl
  | cons hd tl ih =>
      obtain ⟨a, b⟩ := hd
      simp only [List.map_cons, List.mem_cons] at h
      push_neg at h
      simp [jsGet, Ne.symm h.1, ih h.2]

theorem jsGet_jsDelete_self {β : Type} (m : List (String × β)) (k : String)
    (h : jsNodup m) : jsGet (jsDelete m k) k = none := by
  induction m with
  | nil => rfl
  | cons hd tl ih =>
      obtain ⟨a, b⟩ := hd
      simp only [jsNodup, List.map_cons, List.nodup_cons] at h
      by_cases hak : a = k
      · subst hak
        simpa [jsDelete] using jsGet_eq_none_of_not_mem tl a h.1
      · simp only [jsDelete, jsGet, if_neg hak]
        exact ih h.2

/-! ## Claim theorems -/

/-- Claim C1 (code bug, evaluation at the failing input): an LRU cache
with `maxSize = 1` holds 2 entries after two `set`s at the same
millisecond.  `findLRUKey` starts its scan at `oldestTime = Date.now()`
and only accepts strictly smaller access times, so when every entry was
stamped at the current millisecond it returns `null`, `evict()` removes
nothing, and `set` inserts anyway — `size() ≤ maxSize` fails. -/
theorem C1_capacity_bug_eval :
    ((cacheSet (cacheSet (cacheNew Nat ⟨some 1, none, none⟩) "a" 7 none 1000)
        "b" 8 none 1000).data.length : Int) = 2 ∧
    (cacheSet (cacheSet (cacheNew Nat ⟨some 1, none, none⟩) "a" 7 none 1000)
        "b" 8 none 1000).maxSize = 1 := by
  constructor <;> rfl

/-- Claim C2, counterexample: with `burstLimit = 10`, `windowSizeMs = 60000`,
`tokens = 0`, `lastRefill = 0`, a refill at `now = 9000` adds
`⌊9000/60000·10⌋ = 1` token; the time actually consumed for that token is
`6000 ms`, so the claim requires `lastRefill = 6000`, but the code sets
`lastRefill = now = 9000`, discarding the fractional remainder. -/
theorem C2_counterexample :
    (refillTokens ⟨0, 60, 10, 60000, 0, 0, [], ⟨0, 0, 0⟩⟩ 9000).tokens = 1 ∧
    (refillTokens ⟨0, 60, 10, 60000, 0, 0, [], ⟨0, 0, 0⟩⟩ 9000).lastRefill = 9000 ∧
    (refillTokens ⟨0, 60, 10, 60000, 0, 0, [], ⟨0, 0, 0⟩⟩ 9000).lastRefill ≠ 6000 := by
  refine ⟨?_, ?_, ?_⟩ <;> norm_num [refillTokens]

/-- Claim C2, amended: `refillTokens` advances `tokens` by
`⌊(now − lastRefill)/windowSizeMs · burstLimit⌋` clamped to `burstLimit`
and, exactly when that floor is positive, resets `lastRefill` to `now`
(the fractional remainder is discarded); when the floor is not positive
the state is unchanged.  The clamp keeps `tokens ≤ burstLimit`. -/
theorem C2_refill_amended (rl : RateLimiter) (now : Int)
    (tokensToAdd : Int)
    (h : tokensToAdd =
      ⌊(((now - rl.lastRefill : Int) : ℚ) / (rl.windowSizeMs : ℚ)) * (rl.burstLimit : ℚ)⌋) :
    (0 < tokensToAdd →
      (refillTokens rl now).tokens = min rl.burstLimit (rl.tokens + tokensToAdd) ∧
      (refillTokens rl now).lastRefill = now) ∧
    (tokensToAdd ≤ 0 → refillTokens rl now = rl) ∧
    (0 < tokensToAdd → (refillTokens rl now).tokens ≤ rl.burstLimit) := by
  subst h
  refine ⟨fun hpos => ?_, fun hnonpos => ?_, fun hpos => ?_⟩
  · simp only [refillTokens]
    rw [if_pos hpos]
    exact ⟨rfl, rfl⟩
  · simp only [refillTokens]
    rw [if_neg (by omega)]
  · simp only [refillTokens]
    rw [if_pos hpos]
    exact min_le_left _ _

/-- Witness for `C2_refill_amended` at the concrete refill of
`C2_counterexample`. -/
theorem C2_refill_amended_witness :
    (0 < (1 : Int) →
      (refillTokens ⟨0, 60, 10, 60000, 0, 0, [], ⟨0, 0, 0⟩⟩ 9000).tokens =
        min (10 : Int) (0 + 1) ∧
      (refillTokens ⟨0, 60, 10, 60000, 0, 0, [], ⟨0, 0, 0⟩⟩ 9000).lastRefill = 9000) ∧
    ((1 : Int) ≤ 0 →
      refillTokens ⟨0, 60, 10, 60000, 0, 0, [], ⟨0, 0, 0⟩⟩ 9000 =
        ⟨0, 60, 10, 60000, 0, 0, [], ⟨0, 0, 0⟩⟩) ∧
    (0 < (1 : Int) →
      (refillTokens ⟨0, 60, 10, 60000, 0, 0, [], ⟨0, 0, 0⟩⟩ 9000).tokens ≤ 10) :=
  C2_refill_amended ⟨0, 60, 10, 60000, 0, 0, [], ⟨0, 0, 0⟩⟩ 9000 1 (by norm_num)

/-- Claim C3, counterexample: entry `"k"` set at `now = 0` with the
default `ttl = 300` has `expiresAt = 300000`; at `now = 300000` we have
`expiresAt ≤ now`, yet `get` returns the value (the code's expiry test is
the strict `Date.now() > expiresAt`) and does not delete the entry. -/
theorem C3_counterexample :
    (jsGet (cacheSet (cacheNew Nat ⟨none, none, none⟩) "k" 5 none 0).data "k").map
        CacheItem.expiresAt = some 300000 ∧
    (cacheGet (cacheSet (cacheNew Nat ⟨none, none, none⟩) "k" 5 none 0) "k" 300000).1 =
      some 5 ∧
    jsGet (cacheGet (cacheSet (cacheNew Nat ⟨none, none, none⟩) "k" 5 none 0)
        "k" 300000).2.data "k" = some ⟨5, 300000, 0⟩ :=
  ⟨rfl, rfl, rfl⟩

/-- Claim C3, amended: `get(key)` returns the miss sentinel whenever the
key is absent or its entry satisfies `expiresAt < now` (strictly past
expiry — at `now = expiresAt` the entry is still served); in the expired
case the entry is deleted as a side effect, and a value strictly past its
expiry is never returned. -/
theorem C3_get_amended {α : Type} (c : CacheState α) (key : String) (now : Int)
    (item : CacheItem α) (hwf : jsNodup c.data) :
    (jsGet c.data key = none → (cacheGet c key now).1 = none) ∧
    (jsGet c.data key = some item → now > item.expiresAt →
      (cacheGet c key now).1 = none ∧
      jsGet (cacheGet c key now).2.data key = none) ∧
    (jsGet c.data key = some item → ¬ now > item.expiresAt →
      (cacheGet c key now).1 = some item.value) := by
  refine ⟨fun habs => ?_, fun hit hexp => ?_, fun hit hlive => ?_⟩
  · unfold cacheGet
    rw [habs]
  · unfold cacheGet
    rw [hit]
    dsimp only
    rw [if_pos hexp]
    refine ⟨rfl, ?_⟩
    dsimp only
    unfold cacheDelete
    rw [if_pos (by simp [jsHas, hit])]
    simpa using jsGet_jsDelete_self c.data key hwf
  · unfold cacheGet
    rw [hit]
    dsimp only
    rw [if_neg hlive]

/-- Witness for `C3_get_amended`: the singleton cache of
`C3_counterexample` probed at `now = 300001`, one millisecond strictly
past expiry: the entry is reported missing and deleted. -/
theorem C3_get_amended_witness :
    (jsGet (cacheSet (cacheNew Nat ⟨none, none, none⟩) "k" 5 none 0).data "k" = none →
      (cacheGet (cacheSet (cacheNew Nat ⟨none, none, none⟩) "k" 5 none 0) "k" 300001).1 =
        none) ∧
    (jsGet (cacheSet (cacheNew Nat ⟨none, none, none⟩) "k" 5 none 0).data "k" =
        some ⟨5, 300000, 0⟩ →
      (300001 : Int) > (300000 : Int) →
      (cacheGet (cacheSet (cacheNew Nat ⟨none, none, none⟩) "k" 5 none 0) "k" 300001).1 =
        none ∧
      jsGet (cacheGet (cacheSet (cacheNew Nat ⟨none, none, none⟩) "k" 5 none 0)
          "k" 300001).2.data "k" = none) ∧
    (jsGet (cacheSet (cacheNew Nat ⟨none, none, none⟩) "k" 5 none 0).data "k" =
        some ⟨5, 300000, 0⟩ →
      ¬ (300001 : Int) > (300000 : Int) →
      (cacheGet (cacheSet (cacheNew Nat ⟨none, none, none⟩) "k" 5 none 0) "k" 300001).1 =
        some 5) :=
  C3_get_amended (cacheSet (cacheNew Nat ⟨none, none, none⟩) "k" 5 none 0) "k" 300001
    ⟨5, 300000, 0⟩ (by unfold jsNodup; decide)

/-- Claim C4: for a live (unexpired) entry, `has` returns `true` and the
state — in particular `accessTimes`/`accessCounts`, the metadata LRU and
LFU evict by — is exactly unchanged, so the next LRU/LFU victim is
unchanged; for an expired entry it performs the very same deletion as
`get` (identical `data`, `accessTimes`, `accessCounts`, `insertionOrder`
afterwards). -/
theorem C4_has_frame {α : Type} (c : CacheState α) (key : String) (now t : Int)
    (item : CacheItem α) :
    (jsGet c.data key = some item → ¬ now > item.expiresAt →
      cacheHas c key now = (true, c)) ∧
    (jsGet c.data key = some item → ¬ now > item.expiresAt →
      (cacheHas c key now).2.accessTimes = c.accessTimes ∧
      (cacheHas c key now).2.accessCounts = c.accessCounts ∧
      findLRUKey (cacheHas c key now).2 t = findLRUKey c t ∧
      findLFUKey (cacheHas c key now).2 = findLFUKey c) ∧
    (jsGet c.data key = some item → now > item.expiresAt →
      (cacheHas c key now).1 = false ∧
      (cacheHas c key now).2.data = (cacheGet c key now).2.data ∧
      (cacheHas c key now).2.accessTimes = (cacheGet c key now).2.accessTimes ∧
      (cacheHas c key now).2.accessCounts = (cacheGet c key now).2.accessCounts ∧
      (cacheHas c key now).2.insertionOrder = (cacheGet c key now).2.insertionOrder) := by
  refine ⟨fun hit hlive => ?_, fun hit hlive => ?_, fun hit hexp => ?_⟩
  · unfold cacheHas
    rw [hit]
    dsimp only
    rw [if_neg hlive]
  · have h1 : cacheHas c key now = (true, c) := by
      unfold cacheHas
      rw [hit]
      dsimp only
      rw [if_neg hlive]
    rw [h1]
    exact ⟨rfl, rfl, rfl, rfl⟩
  · unfold cacheHas cacheGet
    rw [hit]
    dsimp only
    rw [if_pos hexp, if_pos hexp]
    exact ⟨rfl, rfl, rfl, rfl, rfl⟩

/-- `canMakeRequest` in terms of the admission condition of the spec. -/
theorem canMakeRequest_iff (rl : RateLimiter) :
    canMakeRequest rl = true ↔
      (0 < rl.tokens ∧ (rl.requests.length : Int) < rl.requestsPerMinute) := by
  unfold canMakeRequest
  split_ifs with h1 h2 <;> simp <;> omega

/-- Claim C5: after the refill and window-prune bookkeeping (`rl₁`), one
admission attempt of `waitForToken` is admitted iff `tokens > 0` and the
window count is below `requestsPerMinute`; when not admitted, the computed
wait is `max(timeUntilNextToken, timeUntilOldestWindowEntryExpires, 100)`
with `timeUntilNextToken = windowSizeMs / burstLimit` when out of tokens
and `timeUntilOldestWindowEntryExpires = requests[0] + windowSizeMs − now`
when the window is full (each `0` otherwise). -/
theorem C5_admission (rl : RateLimiter) (now : Int) (rl₁ : RateLimiter)
    (h : rl₁ = cleanOldRequests (refillTokens rl now) now) :
    ((waitForTokenStep rl now).1 = AdmissionResult.admitted ↔
      (0 < rl₁.tokens ∧ (rl₁.requests.length : Int) < rl₁.requestsPerMinute)) ∧
    (¬ (0 < rl₁.tokens ∧ (rl₁.requests.length : Int) < rl₁.requestsPerMinute) →
      (waitForTokenStep rl now).1 = AdmissionResult.rejected
        (max (max
          (if rl₁.tokens ≤ 0 then (rl₁.windowSizeMs : ℚ) / (rl₁.burstLimit : ℚ) else 0)
          (if (rl₁.requests.length : Int) ≥ rl₁.requestsPerMinute then
            ((rl₁.requests.headD 0 + rl₁.windowSizeMs - now : Int) : ℚ)
          else 0)) 100)) := by
  subst h
  by_cases hc : canMakeRequest (cleanOldRequests (refillTokens rl now) now) = true
  · refine ⟨⟨fun _ => (canMakeRequest_iff _).mp hc, fun _ => ?_⟩, fun hnot => ?_⟩
    · simp only [waitForTokenStep]
      rw [if_pos hc]
    · exact absurd ((canMakeRequest_iff _).mp hc) hnot
  · have hstep : (waitForTokenStep rl now).1 =
        AdmissionResult.rejected
          (calculateWaitTime (cleanOldRequests (refillTokens rl now) now) now) := by
      simp only [waitForTokenStep]
      rw [if_neg hc]
    refine ⟨⟨fun hadm => ?_, fun hcond => ?_⟩, fun _ => ?_⟩
    · rw [hstep] at hadm
      exact absurd hadm (by simp)
    · exact absurd ((canMakeRequest_iff _).mpr hcond) hc
    · rw [hstep]
      rfl

/-- Witness for `C5_admission`: a limiter with no tokens and a full
window (`requestsPerMinute = 1`, one admitted timestamp) at `now = 9000`:
the attempt is rejected and the computed wait is
`max(6000, 1000 + 60000 − 9000, 100) = 52000`. -/
theorem C5_admission_witness :
    ((waitForTokenStep ⟨0, 1, 10, 60000, 0, 8000, [1000], ⟨1, 0, 0⟩⟩ 9000).1 =
        AdmissionResult.admitted ↔
      (0 < (cleanOldRequests
          (refillTokens ⟨0, 1, 10, 60000, 0, 8000, [1000], ⟨1, 0, 0⟩⟩ 9000) 9000).tokens ∧
        ((cleanOldRequests
          (refillTokens ⟨0, 1, 10, 60000, 0, 8000, [1000], ⟨1, 0, 0⟩⟩ 9000)
            9000).requests.length : Int) <
          (cleanOldRequests
            (refillTokens ⟨0, 1, 10, 60000, 0, 8000, [1000], ⟨1, 0, 0⟩⟩ 9000)
              9000).requestsPerMinute)) ∧
    (¬ (0 < (cleanOldRequests
          (refillTokens ⟨0, 1, 10, 60000, 0, 8000, [1000], ⟨1, 0, 0⟩⟩ 9000) 9000).tokens ∧
        ((cleanOldRequests
          (refillTokens ⟨0, 1, 10, 60000, 0, 8000, [1000], ⟨1, 0, 0⟩⟩ 9000)
            9000).requests.length : Int) <
          (cleanOldRequests
            (refillTokens ⟨0, 1, 10, 60000, 0, 8000, [1000], ⟨1, 0, 0⟩⟩ 9000)
              9000).requestsPerMinute) →
      (waitForTokenStep ⟨0, 1, 10, 60000, 0, 8000, [1000], ⟨1, 0, 0⟩⟩ 9000).1 =
        AdmissionResult.rejected
          (max (max
            (if (cleanOldRequests
                (refillTokens ⟨0, 1, 10, 60000, 0, 8000, [1000], ⟨1, 0, 0⟩⟩ 9000)
                  9000).tokens ≤ 0 then
              ((cleanOldRequests
                (refillTokens ⟨0, 1, 10, 60000, 0, 8000, [1000], ⟨1, 0, 0⟩⟩ 9000)
                  9000).windowSizeMs : ℚ) /
                ((cleanOldRequests
                  (refillTokens ⟨0, 1, 10, 60000, 0, 8000, [1000], ⟨1, 0, 0⟩⟩ 9000)
                    9000).burstLimit : ℚ)
            else 0)
            (if ((cleanOldRequests
                (refillTokens ⟨0, 1, 10, 60000, 0, 8000, [1000], ⟨1, 0, 0⟩⟩ 9000)
                  9000).requests.length : Int) ≥
                (cleanOldRequests
                  (refillTokens ⟨0, 1, 10, 60000, 0, 8000, [1000], ⟨1, 0, 0⟩⟩ 9000)
                    9000).requestsPerMinute then
              (((cleanOldRequests
                (refillTokens ⟨0, 1, 10, 60000, 0, 8000, [1000], ⟨1, 0, 0⟩⟩ 9000)
                  9000).requests.headD 0 +
                (cleanOldRequests
                  (refillTokens ⟨0, 1, 10, 60000, 0, 8000, [1000], ⟨1, 0, 0⟩⟩ 9000)
                    9000).windowSizeMs - 9000 : Int) : ℚ)
            else 0)) 100)) :=
  C5_admission ⟨0, 1, 10, 60000, 0, 8000, [1000], ⟨1, 0, 0⟩⟩ 9000
    (cleanOldRequests (refillTokens ⟨0, 1, 10, 60000, 0, 8000, [1000], ⟨1, 0, 0⟩⟩ 9000) 9000)
    rfl

/-- Claim C6, counterexample: constructing a `Cache` with the invalid
`maxSize = 0` raises nothing — it yields the very same state as
`maxSize = 1000` (the `||` default), i.e. the invalid value is silently
coerced; likewise `RateLimiter` with `requestsPerMinute = 0` and
`burstLimit = 0` silently becomes the default `60`/`10` limiter. -/
theorem C6_counterexample :
    (cacheNew Nat ⟨some 0, none, none⟩).maxSize = 1000 ∧
    cacheNew Nat ⟨some 0, none, none⟩ = cacheNew Nat ⟨some 1000, none, none⟩ ∧
    (rlNew 0 ⟨some 0, some 0⟩ 0).requestsPerMinute = 60 ∧
    (rlNew 0 ⟨some 0, some 0⟩ 0).burstLimit = 10 :=
  ⟨rfl, rfl, rfl, rfl⟩

/-- Claim C6, amended: construction never validates and never raises —
both constructors are total functions of their options.  For every option
value: an absent or falsy value (`0` for the numbers, `""` for the
strategy) is silently replaced by the default via `||`, and every other
value — however invalid (a negative size or limit, an unrecognized
strategy) — is stored unchanged; an invalid `burstLimit` even propagates
into the initial `tokens`. -/
theorem C6_construction_amended {α : Type} (options : CacheOptions)
    (rlOptions : RLOptions) (i : Nat) (now : Int) (v t rpm bl : Int)
    (s : String) :
    (options.maxSize = none → (cacheNew α options).maxSize = 1000) ∧
    (options.maxSize = some 0 → (cacheNew α options).maxSize = 1000) ∧
    (options.maxSize = some v → v ≠ 0 → (cacheNew α options).maxSize = v) ∧
    (options.ttl = none → (cacheNew α options).ttl = 300) ∧
    (options.ttl = some 0 → (cacheNew α options).ttl = 300) ∧
    (options.ttl = some t → t ≠ 0 → (cacheNew α options).ttl = t) ∧
    (options.strategy = none → (cacheNew α options).strategy = "lru") ∧
    (options.strategy = some "" → (cacheNew α options).strategy = "lru") ∧
    (options.strategy = some s → s ≠ "" → (cacheNew α options).strategy = s) ∧
    (rlOptions.requestsPerMinute = none →
      (rlNew i rlOptions now).requestsPerMinute = 60) ∧
    (rlOptions.requestsPerMinute = some 0 →
      (rlNew i rlOptions now).requestsPerMinute = 60) ∧
    (rlOptions.requestsPerMinute = some rpm → rpm ≠ 0 →
      (rlNew i rlOptions now).requestsPerMinute = rpm) ∧
    (rlOptions.burstLimit = none →
      (rlNew i rlOptions now).burstLimit = 10 ∧ (rlNew i rlOptions now).tokens = 10) ∧
    (rlOptions.burstLimit = some 0 →
      (rlNew i rlOptions now).burstLimit = 10 ∧ (rlNew i rlOptions now).tokens = 10) ∧
    (rlOptions.burstLimit = some bl → bl ≠ 0 →
      (rlNew i rlOptions now).burstLimit = bl ∧ (rlNew i rlOptions now).tokens = bl) := by
  refine ⟨fun h => ?_, fun h => ?_, fun h hv => ?_, fun h => ?_, fun h => ?_,
    fun h hv => ?_, fun h => ?_, fun h => ?_, fun h hv => ?_, fun h => ?_,
    fun h => ?_, fun h hv => ?_, fun h => ?_, fun h => ?_, fun h hv => ?_⟩ <;>
    simp [cacheNew, rlNew, jsOrInt, jsOrStr, h]
  · exact fun h0 => absurd h0 hv
  · exact fun h0 => absurd h0 hv
  · exact fun h0 => absurd h0 hv
  · exact fun h0 => absurd h0 hv
  · exact fun h0 => absurd h0 hv

/-- Claim C7: on a 429 response carrying a retry hint of `n` seconds,
`handleRateLimitResponse` imposes a wait of exactly `n * 1000`
milliseconds regardless of the limiter's bucket/window state, increments
`rejectedRequests`, and folds the forced wait into the running average;
without a hint it imposes no wait and leaves the limiter untouched (the
base `waitForToken` estimate then governs the retry). -/
theorem C7_retry_hint (rl : RateLimiter) (response : RLResponse) (n : Int)
    (hstatus : response.status = 429) :
    (response.retryAfter = some n →
      (handleRateLimitResponse rl response).1 = (n : ℚ) * 1000 ∧
      (handleRateLimitResponse rl response).2.stats.rejectedRequests =
        rl.stats.rejectedRequests + 1 ∧
      (handleRateLimitResponse rl response).2.stats.averageWaitTime =
        (rl.stats.averageWaitTime * ((rl.stats.rejectedRequests : ℚ) + 1 - 1) +
          (n : ℚ) * 1000) / ((rl.stats.rejectedRequests : ℚ) + 1) ∧
      (handleRateLimitResponse rl response).2.tokens = rl.tokens ∧
      (handleRateLimitResponse rl response).2.requests = rl.requests) ∧
    (response.retryAfter = none → handleRateLimitResponse rl response = (0, rl)) := by
  refine ⟨fun hhint => ?_, fun hnone => ?_⟩
  · unfold handleRateLimitResponse
    rw [if_pos hstatus, hhint]
    dsimp only [updateAverageWaitTime]
    refine ⟨rfl, rfl, ?_, rfl, rfl⟩
    push_cast
    ring
  · unfold handleRateLimitResponse
    rw [if_pos hstatus, hnone]

/-- Witness for `C7_retry_hint`: a fresh default limiter receiving a 429
with a 2-second hint waits exactly 2000 ms and records one rejection. -/
theorem C7_retry_hint_witness :
    ((⟨429, some 2⟩ : RLResponse).retryAfter = some 2 →
      (handleRateLimitResponse (rlNew 0 ⟨none, none⟩ 0) ⟨429, some 2⟩).1 =
        ((2 : Int) : ℚ) * 1000 ∧
      (handleRateLimitResponse (rlNew 0 ⟨none, none⟩ 0) ⟨429, some 2⟩).2.stats.rejectedRequests =
        (rlNew 0 ⟨none, none⟩ 0).stats.rejectedRequests + 1 ∧
      (handleRateLimitResponse (rlNew 0 ⟨none, none⟩ 0) ⟨429, some 2⟩).2.stats.averageWaitTime =
        ((rlNew 0 ⟨none, none⟩ 0).stats.averageWaitTime *
            (((rlNew 0 ⟨none, none⟩ 0).stats.rejectedRequests : ℚ) + 1 - 1) +
          ((2 : Int) : ℚ) * 1000) /
          (((rlNew 0 ⟨none, none⟩ 0).stats.rejectedRequests : ℚ) + 1) ∧
      (handleRateLimitResponse (rlNew 0 ⟨none, none⟩ 0) ⟨429, some 2⟩).2.tokens =
        (rlNew 0 ⟨none, none⟩ 0).tokens ∧
      (handleRateLimitResponse (rlNew 0 ⟨none, none⟩ 0) ⟨429, some 2⟩).2.requests =
        (rlNew 0 ⟨none, none⟩ 0).requests) ∧
    ((⟨429, some 2⟩ : RLResponse).retryAfter = none →
      handleRateLimitResponse (rlNew 0 ⟨none, none⟩ 0) ⟨429, some 2⟩ =
        (0, rlNew 0 ⟨none, none⟩ 0)) :=
  C7_retry_hint (rlNew 0 ⟨none, none⟩ 0) ⟨429, some 2⟩ 2 rfl

/-- Claim C8: `getLimiter` creates a limiter lazily, with the
caller-supplied options, on the first reference of a key (first conjunct),
and any subsequent `getLimiter` of that key — whatever options it passes —
returns that very limiter (same identity tag and state) and leaves the
registry unchanged (second conjunct). -/
theorem C8_registry_single_instance (g : GlobalRL) (key : String)
    (options options₂ : RLOptions) (now now₂ : Int) :
    (jsGet g.limiters key = none →
      (getLimiter g key options now).1 = rlNew g.nextId options now) ∧
    getLimiter (getLimiter g key options now).2 key options₂ now₂ =
      ((getLimiter g key options now).1, (getLimiter g key options now).2) := by
  constructor
  · intro habs
    unfold getLimiter
    rw [habs]
  · cases hk : jsGet g.limiters key with
    | some l =>
        have h1 : getLimiter g key options now = (l, g) := by
          unfold getLimiter
          rw [hk]
        rw [h1]
        unfold getLimiter
        rw [hk]
    | none =>
        have h1 : getLimiter g key options now =
            (rlNew g.nextId options now,
              ⟨jsSet g.limiters key (rlNew g.nextId options now), g.nextId + 1⟩) := by
          unfold getLimiter
          rw [hk]
        rw [h1]
        unfold getLimiter
        rw [jsGet_jsSet_self]

/-- Claim C9: re-`set` of a key already present (here with an arbitrary
accumulated `accessCount = n₀`) performs no eviction, resets the key's
`accessCount` to `0` and its `lastAccessedAt` to `now`; hence against any
count `n'` held by any key afterwards (counts are non-negative in every
reachable state: `set` writes `0`, `get` increments) the re-set key's
count is minimal — it is an LFU eviction candidate. -/
theorem C9_reset_existing {α : Type} (c : CacheState α) (key k' : String)
    (v : α) (ttlOv : Option Int) (now n₀ n' : Int)
    (hprior : jsGet c.accessCounts key = some n₀)
    (hk : jsHas c.data key = true)
    (hk' : jsGet (cacheSet c key v ttlOv now).accessCounts k' = some n')
    (hn' : 0 ≤ n') :
    jsGet (cacheSet c key v ttlOv now).accessCounts key = some 0 ∧
    jsGet (cacheSet c key v ttlOv now).accessTimes key = some now ∧
    (jsGet (cacheSet c key v ttlOv now).accessCounts key).getD 1 ≤ n' := by
  have hguard : ¬ ((c.data.length : Int) ≥ c.maxSize ∧ ¬ jsHas c.data key) := by
    simp [hk]
  unfold cacheSet
  rw [if_neg hguard]
  dsimp only
  refine ⟨jsGet_jsSet_self _ _ _, jsGet_jsSet_self _ _ _, ?_⟩
  rw [jsGet_jsSet_self]
  simpa using hn'

/-- Witness for `C9_reset_existing`: key `"a"` is set at `t = 0`, read at
`t = 10` (raising its `accessCount` to 1), and re-set at `t = 20`: its
count is back to `0`, its access time is `20`, and its count is minimal. -/
theorem C9_reset_existing_witness :
    jsGet (cacheSet (cacheGet (cacheSet (cacheNew Nat ⟨none, none, none⟩) "a" 1 none 0)
        "a" 10).2 "a" 2 none 20).accessCounts "a" = some 0 ∧
    jsGet (cacheSet (cacheGet (cacheSet (cacheNew Nat ⟨none, none, none⟩) "a" 1 none 0)
        "a" 10).2 "a" 2 none 20).accessTimes "a" = some 20 ∧
    (jsGet (cacheSet (cacheGet (cacheSet (cacheNew Nat ⟨none, none, none⟩) "a" 1 none 0)
        "a" 10).2 "a" 2 none 20).accessCounts "a").getD 1 ≤ 0 :=
  C9_reset_existing
    (cacheGet (cacheSet (cacheNew Nat ⟨none, none, none⟩) "a" 1 none 0) "a" 10).2
    "a" "a" 2 none 20 1 0 (by decide) (by decide) (by decide) (by decide)

/-- Claim C10: when a limiter is already registered for the key,
`getLimiter(key, options)` ignores `options` entirely and modifies
nothing: it returns the stored limiter and the registry exactly as they
were. -/
theorem C10_options_ignored (g : GlobalRL) (key : String) (l : RateLimiter)
    (options : RLOptions) (now : Int)
    (h : jsGet g.limiters key = some l) :
    getLimiter g key options now = (l, g) := by
  unfold getLimiter
  rw [h]

/-- Witness for `C10_options_ignored`: a registry whose key `"figma"` was
created with `{requestsPerMinute: 5, burstLimit: 2}`; a later lookup with
`{requestsPerMinute: 99, burstLimit: 99}` at another time returns the
original limiter and the unchanged registry. -/
theorem C10_options_ignored_witness :
    getLimiter (getLimiter globalNew "figma" ⟨some 5, some 2⟩ 0).2 "figma"
        ⟨some 99, some 99⟩ 777 =
      (rlNew 0 ⟨some 5, some 2⟩ 0, (getLimiter globalNew "figma" ⟨some 5, some 2⟩ 0).2) :=
  C10_options_ignored (getLimiter globalNew "figma" ⟨some 5, some 2⟩ 0).2 "figma"
    (rlNew 0 ⟨some 5, some 2⟩ 0) ⟨some 99, some 99⟩ 777 (by decide)

end Spec2Proof
